import Mathlib

/-!
# Endochain: formal model of the LEI-V diagnostic core

A shallow embedding, in Lean 4, of the endochain repository: the LEI-V
classifier and calculator (src/core/lei_v.py), the audit hash chain
(src/core/audit.py), the frozen constants table (src/core/viduya_constants.py),
the glyph geometry (src/core/viduya_glyph.py), the Bayesian fusion engine
(src/ai_integrations/bayesian_fusion.py), the EVG processing endpoint
(src/backend/routers/evg.py) and the electrode placement calculator
(src/hardware/rsl_placement.py), together with theorems settling the
behavioural properties stated in the specification.

Modelling conventions:
* Python Decimal values (exact decimals under a 100-digit context) and exact
  sympy rationals are both embedded as Lean rationals; every comparison the
  code performs on them is exact, so the order structure coincides.
* Symbolic real-valued geometry (sympy sqrt / cos / sin expressions) is
  embedded in the real numbers.
* Stateful objects (the audit hasher, the temp-file directory of the EVG
  endpoint) become explicit state passed in and out of the functions that
  mutate them; wall-clock timestamps, which Python reads inside the functions,
  become explicit string parameters.
* Fallible code returns Except, carrying the message of the exception the
  Python code raises.
-/

namespace Endochain

/-! ## DiagnosticStage and LEIVThresholds (src/core/lei_v.py) -/

/-- Endometriosis diagnostic stages based on LEI-V
(enum DiagnosticStage, src/core/lei_v.py lines 39-46). -/
inductive DiagnosticStage where
  | HEALTHY
  | STAGE_0
  | STAGE_I
  | STAGE_II
  | STAGE_III
  | STAGE_IV
deriving DecidableEq, Repr

/-- The stage name string carried by each enum member (DiagnosticStage values). -/
def DiagnosticStage.value : DiagnosticStage → String
  | .HEALTHY => "healthy"
  | .STAGE_0 => "stage_0_early"
  | .STAGE_I => "stage_i_minimal"
  | .STAGE_II => "stage_ii_mild"
  | .STAGE_III => "stage_iii_moderate"
  | .STAGE_IV => "stage_iv_severe"

/-- Clinical thresholds for LEI-V classification (dataclass LEIVThresholds,
src/core/lei_v.py lines 49-58). Decimal fields are embedded as rationals. -/
structure LEIVThresholds where
  healthy_mean : ℚ
  healthy_std : ℚ
  stage_0_threshold : ℚ
  advanced_threshold : ℚ

/-- The default field values of LEIVThresholds:
Decimal 0.0021, 0.0018, 0.018, 0.08. -/
def defaultThresholds : LEIVThresholds :=
  { healthy_mean := 21/10000
    healthy_std := 18/10000
    stage_0_threshold := 18/1000
    advanced_threshold := 8/100 }

/-- LEIVThresholds.classify (src/core/lei_v.py lines 60-73): the ordered
if/elif chain over the Decimal value. -/
def LEIVThresholds.classify (t : LEIVThresholds) (lei_v : ℚ) : DiagnosticStage :=
  if lei_v < t.stage_0_threshold then .HEALTHY
  else if lei_v < t.advanced_threshold then .STAGE_0
  else if lei_v < 15/100 then .STAGE_I
  else if lei_v < 25/100 then .STAGE_II
  else if lei_v < 40/100 then .STAGE_III
  else .STAGE_IV

/-! ## Theorems for claim C1 -/

/-- C1: with the default thresholds (0.018 and 0.08), classification is the
ordered band structure with lower-closed boundaries: v < 0.018 gives Healthy;
0.018 <= v < 0.08 gives Stage-0; 0.08 <= v < 0.15 gives Stage I;
0.15 <= v < 0.25 gives Stage II; 0.25 <= v < 0.40 gives Stage III;
0.40 <= v gives Stage IV.  In particular v = 0.018 classifies as Stage-0, not
Healthy, and v = 0.08 classifies as Stage I, not Stage-0. -/
theorem C1_classification_boundaries (v : ℚ) :
    (v < 18/1000 → defaultThresholds.classify v = .HEALTHY) ∧
    (18/1000 ≤ v → v < 8/100 → defaultThresholds.classify v = .STAGE_0) ∧
    (8/100 ≤ v → v < 15/100 → defaultThresholds.classify v = .STAGE_I) ∧
    (15/100 ≤ v → v < 25/100 → defaultThresholds.classify v = .STAGE_II) ∧
    (25/100 ≤ v → v < 40/100 → defaultThresholds.classify v = .STAGE_III) ∧
    (40/100 ≤ v → defaultThresholds.classify v = .STAGE_IV) ∧
    defaultThresholds.classify (18/1000) = .STAGE_0 ∧
    defaultThresholds.classify (8/100) = .STAGE_I := by
  refine ⟨fun h1 => ?_, fun h1 h2 => ?_, fun h1 h2 => ?_, fun h1 h2 => ?_,
    fun h1 h2 => ?_, fun h1 => ?_, ?_, ?_⟩ <;>
  · unfold LEIVThresholds.classify defaultThresholds
    split_ifs <;> first | rfl | linarith

/-- Witness for C1: the theorem applied at the two boundary values named by
the claim, 0.018 and 0.08. -/
theorem C1_classification_boundaries_witness :
    ((18:ℚ)/1000 ≤ 18/1000 ∧ (18:ℚ)/1000 < 8/100 ∧
      defaultThresholds.classify (18/1000) = .STAGE_0) ∧
    ((8:ℚ)/100 ≤ 8/100 ∧ (8:ℚ)/100 < 15/100 ∧
      defaultThresholds.classify (8/100) = .STAGE_I) :=
  ⟨⟨by norm_num, by norm_num,
      (C1_classification_boundaries (18/1000)).2.1 (by norm_num) (by norm_num)⟩,
    ⟨by norm_num, by norm_num,
      (C1_classification_boundaries (8/100)).2.2.1 (by norm_num) (by norm_num)⟩⟩

/-! ## SHA-256 (the hashlib.sha256 dependency of src/core/audit.py)

The audit hasher delegates hashing to the Python standard library.  The
functions below are a complete executable model of SHA-256 over a byte list,
with 32-bit words carried as naturals reduced mod 2^32. -/

/-- Reduce a natural to a 32-bit word. -/
def w32 (n : ℕ) : ℕ := n % 4294967296

/-- 32-bit right rotation by n of a word w < 2^32. -/
def rotr32 (n w : ℕ) : ℕ := w / 2 ^ n + w % 2 ^ n * 2 ^ (32 - n)

/-- Logical right shift by n. -/
def shr32 (n w : ℕ) : ℕ := w / 2 ^ n

/-- 32-bit complement of a word w < 2^32. -/
def not32 (w : ℕ) : ℕ := 4294967295 ^^^ w

/-- SHA-256 choice function. -/
def shaCh (x y z : ℕ) : ℕ := (x &&& y) ^^^ (not32 x &&& z)

/-- SHA-256 majority function. -/
def shaMaj (x y z : ℕ) : ℕ := (x &&& y) ^^^ (x &&& z) ^^^ (y &&& z)

/-- SHA-256 big sigma 0. -/
def bigSigma0 (x : ℕ) : ℕ := rotr32 2 x ^^^ rotr32 13 x ^^^ rotr32 22 x

/-- SHA-256 big sigma 1. -/
def bigSigma1 (x : ℕ) : ℕ := rotr32 6 x ^^^ rotr32 11 x ^^^ rotr32 25 x

/-- SHA-256 small sigma 0. -/
def smallSigma0 (x : ℕ) : ℕ := rotr32 7 x ^^^ rotr32 18 x ^^^ shr32 3 x

/-- SHA-256 small sigma 1. -/
def smallSigma1 (x : ℕ) : ℕ := rotr32 17 x ^^^ rotr32 19 x ^^^ shr32 10 x

/-- The 64 SHA-256 round constants, written in decimal. -/
def sha256K : List ℕ :=
  [1116352408, 1899447441, 3049323471, 3921009573, 961987163,
   1508970993, 2453635748, 2870763221, 3624381080, 310598401,
   607225278, 1426881987, 1925078388, 2162078206, 2614888103,
   3248222580, 3835390401, 4022224774, 264347078, 604807628,
   770255983, 1249150122, 1555081692, 1996064986, 2554220882,
   2821834349, 2952996808, 3210313671, 3336571891, 3584528711,
   113926993, 338241895, 666307205, 773529912, 1294757372,
   1396182291, 1695183700, 1986661051, 2177026350, 2456956037,
   2730485921, 2820302411, 3259730800, 3345764771, 3516065817,
   3600352804, 4094571909, 275423344, 430227734, 506948616,
   659060556, 883997877, 958139571, 1322822218, 1537002063,
   1747873779, 1955562222, 2024104815, 2227730452, 2361852424,
   2428436474, 2756734187, 3204031479, 3329325298]

/-- The SHA-256 working state: eight 32-bit words. -/
structure Sha256State where
  a : ℕ
  b : ℕ
  c : ℕ
  d : ℕ
  e : ℕ
  f : ℕ
  g : ℕ
  h : ℕ
deriving DecidableEq, Repr

/-- The SHA-256 initial hash value, written in decimal. -/
def sha256Init : Sha256State :=
  ⟨1779033703, 3144134277, 1013904242, 2773480762,
   1359893119, 2600822924, 528734635, 1541459225⟩

/-- One SHA-256 compression round, consuming a (round constant, schedule word)
pair. -/
def shaRound (s : Sha256State) (kw : ℕ × ℕ) : Sha256State :=
  let t1 := w32 (s.h + bigSigma1 s.e + shaCh s.e s.f s.g + kw.1 + kw.2)
  let t2 := w32 (bigSigma0 s.a + shaMaj s.a s.b s.c)
  { a := w32 (t1 + t2), b := s.a, c := s.b, d := s.c,
    e := w32 (s.d + t1), f := s.e, g := s.f, h := s.g }

/-- Assemble the 16 big-endian message words of one 64-byte block. -/
def bytesToWordsBE (block : List ℕ) : List ℕ :=
  List.ofFn fun i : Fin 16 =>
    block.getD (4 * i.val) 0 * 16777216 + block.getD (4 * i.val + 1) 0 * 65536 +
      block.getD (4 * i.val + 2) 0 * 256 + block.getD (4 * i.val + 3) 0

/-- Extend 16 message words to the 64-entry SHA-256 message schedule. -/
def extendSchedule (ws : List ℕ) : List ℕ :=
  (List.range 48).foldl
    (fun acc _ =>
      let n := acc.length
      acc ++ [w32 (smallSigma1 (acc.getD (n - 2) 0) + acc.getD (n - 7) 0 +
        smallSigma0 (acc.getD (n - 15) 0) + acc.getD (n - 16) 0)])
    ws

/-- Process one 64-byte block. -/
def processBlock (s : Sha256State) (block : List ℕ) : Sha256State :=
  let ws := extendSchedule (bytesToWordsBE block)
  let r := (sha256K.zip ws).foldl shaRound s
  ⟨w32 (s.a + r.a), w32 (s.b + r.b), w32 (s.c + r.c), w32 (s.d + r.d),
   w32 (s.e + r.e), w32 (s.f + r.f), w32 (s.g + r.g), w32 (s.h + r.h)⟩

/-- The 8-byte big-endian encoding of the bit length. -/
def lenBytesBE (n : ℕ) : List ℕ :=
  List.ofFn fun i : Fin 8 => n / 2 ^ (8 * (7 - i.val)) % 256

/-- SHA-256 padding: append 0x80, zero bytes up to 56 mod 64, then the
64-bit big-endian message bit length. -/
def padMessage (msg : List ℕ) : List ℕ :=
  msg ++ [128] ++ List.replicate ((119 - msg.length % 64) % 64) 0 ++
    lenBytesBE (8 * msg.length)

/-- Split a byte list into 64-byte chunks. -/
def chunks64 : List ℕ → List (List ℕ)
  | [] => []
  | x :: rest => ((x :: rest).take 64) :: chunks64 ((x :: rest).drop 64)
termination_by l => l.length
decreasing_by
  simp only [List.length_drop, List.length_cons]
  omega

/-- SHA-256 over a byte list, as the final state. -/
def sha256Words (msg : List ℕ) : Sha256State :=
  (chunks64 (padMessage msg)).foldl processBlock sha256Init

/-- The 16 lowercase hex digit characters. -/
def hexAlphabet : List Char := "0123456789abcdef".toList

/-- The lowercase hex digit for a value below 16. -/
def hexDigit (n : ℕ) : Char := hexAlphabet.getD n '0'

/-- The 8 hex characters of one 32-bit word, most significant digit first. -/
def wordToHex (w : ℕ) : List Char :=
  List.ofFn fun i : Fin 8 => hexDigit (w / 16 ^ (7 - i.val) % 16)

/-- The 64-character lowercase hex digest of a SHA-256 state
(hashlib hexdigest). -/
def digestHex (s : Sha256State) : String :=
  String.mk (wordToHex s.a ++ wordToHex s.b ++ wordToHex s.c ++ wordToHex s.d ++
    wordToHex s.e ++ wordToHex s.f ++ wordToHex s.g ++ wordToHex s.h)

/-- UTF-8 encoding of one character (str.encode of the Python payload). -/
def utf8Bytes (c : Char) : List ℕ :=
  let n := c.toNat
  if n < 128 then [n]
  else if n < 2048 then [192 + n / 64, 128 + n % 64]
  else if n < 65536 then [224 + n / 4096, 128 + n / 64 % 64, 128 + n % 64]
  else [240 + n / 262144, 128 + n / 4096 % 64, 128 + n / 64 % 64, 128 + n % 64]

/-- UTF-8 bytes of a string. -/
def strUtf8 (s : String) : List ℕ := s.toList.flatMap utf8Bytes

/-- hashlib.sha256(s.encode("utf-8")).hexdigest(): the 64-hex-character
SHA-256 digest of a string. -/
def sha256hex (s : String) : String := digestHex (sha256Words (strUtf8 s))

/-- Boolean check that a string is a 64-character lowercase hex digest. -/
def isHex64 (s : String) : Bool :=
  s.length == 64 && s.toList.all (fun c => hexAlphabet.contains c)

/-- Each word contributes exactly 8 hex characters. -/
theorem length_wordToHex (w : ℕ) : (wordToHex w).length = 8 := by
  simp [wordToHex]

/-- Hex digits of values below 16 lie in the hex alphabet. -/
theorem hexDigit_mem (n : ℕ) (hn : n < 16) : hexAlphabet.contains (hexDigit n) = true := by
  interval_cases n <;> decide

/-- Every character produced by wordToHex is a hex character. -/
theorem wordToHex_hex (w : ℕ) :
    (wordToHex w).all (fun c => hexAlphabet.contains c) = true := by
  rw [List.all_eq_true]
  intro c hc
  rw [wordToHex, List.mem_ofFn] at hc
  obtain ⟨i, hi⟩ := hc
  exact hi ▸ hexDigit_mem _ (Nat.mod_lt _ (by norm_num))

/-- Every SHA-256 hex digest is 64 lowercase hex characters. -/
theorem isHex64_digestHex (s : Sha256State) : isHex64 (digestHex s) = true := by
  have hlen : (digestHex s).length = 64 := by
    simp [digestHex, String.length, length_wordToHex]
  rw [isHex64, Bool.and_eq_true, beq_iff_eq]
  refine ⟨hlen, ?_⟩
  show (String.toList (digestHex s)).all _ = true
  simp only [digestHex, String.toList, List.all_append, Bool.and_eq_true]
  exact ⟨⟨⟨⟨⟨⟨⟨wordToHex_hex _, wordToHex_hex _⟩, wordToHex_hex _⟩, wordToHex_hex _⟩,
    wordToHex_hex _⟩, wordToHex_hex _⟩, wordToHex_hex _⟩, wordToHex_hex _⟩

/-- sha256hex always yields 64 lowercase hex characters. -/
theorem isHex64_sha256hex (s : String) : isHex64 (sha256hex s) = true :=
  isHex64_digestHex _

/-! ## Audit hash chain (class AuditHasher, src/core/audit.py)

The hasher object state is the entry list and the last-hash pointer; both are
passed explicitly.  The two datetime.utcnow() reads inside hash_computation
become the two timestamp fields of HashInput.  secret_key is None at every
construction site in this repository (LEIVCalculator and BayesianFusionEngine
both call AuditHasher() with no argument), so the plain-SHA-256 branch of
hash_computation is the live one and is the branch modelled here. -/

/-- AuditHasher.GENESIS_HASH: 64 zero characters. -/
def GENESIS_HASH : String := String.mk (List.replicate 64 '0')

/-- AuditHasher.CITATION. -/
def CITATION : String := "Viduya Family Legacy Glyph © 2025"

/-- One link of the audit chain (dataclass AuditEntry, src/core/audit.py). -/
structure AuditEntry where
  entry_hash : String
  previous_hash : String
  timestamp : String
  data_type : String
  data_summary : String
deriving DecidableEq, Repr

/-- The mutable state of an AuditHasher: its entry list and last-hash
pointer. -/
structure AuditHasher where
  chain : List AuditEntry
  last_hash : String
deriving DecidableEq, Repr

/-- AuditHasher.__init__ with no secret key: empty chain, genesis pointer. -/
def freshHasher : AuditHasher := ⟨[], GENESIS_HASH⟩

/-- json.dumps escaping of one character: ensure_ascii is on by default, so
quotes, backslashes, the C0 short escapes, other control characters and all
non-ASCII characters are escaped (non-BMP characters as surrogate pairs). -/
def jsonEscapeChar (c : Char) : List Char :=
  let n := c.toNat
  if c = '"' then ['\\', '"']
  else if c = '\\' then ['\\', '\\']
  else if c = '\n' then ['\\', 'n']
  else if c = '\t' then ['\\', 't']
  else if c = '\r' then ['\\', 'r']
  else if n < 32 ∨ 127 ≤ n then
    if n < 65536 then
      '\\' :: 'u' :: List.ofFn fun i : Fin 4 => hexDigit (n / 16 ^ (3 - i.val) % 16)
    else
      ('\\' :: 'u' :: List.ofFn (fun i : Fin 4 =>
          hexDigit ((55296 + (n - 65536) / 1024) / 16 ^ (3 - i.val) % 16))) ++
        ('\\' :: 'u' :: List.ofFn fun i : Fin 4 =>
          hexDigit ((56320 + (n - 65536) % 1024) / 16 ^ (3 - i.val) % 16))
  else [c]

/-- A JSON string literal: the escaped characters between double quotes. -/
def jsonStr (s : String) : String :=
  "\"" ++ String.mk (s.toList.flatMap jsonEscapeChar) ++ "\""

/-- json.dumps(payload, sort_keys=True, default=str) of the hash_computation
payload dict: the four keys in sorted order (citation, data, previous_hash,
timestamp), each value a JSON string, with the default item separators. -/
def serializePayload (ts data_ser prev : String) : String :=
  "\x7b\"citation\": " ++ jsonStr CITATION ++ ", \"data\": " ++ jsonStr data_ser ++
    ", \"previous_hash\": " ++ jsonStr prev ++ ", \"timestamp\": " ++ jsonStr ts ++ "\x7d"

/-- The per-call inputs of hash_computation that Python reads from the
environment or derives from the data dict: the two utcnow() timestamps, the
deterministic serialization _serialize_for_hash(data), the data-type tag
data.get("type", "computation") and the _generate_summary(data) text. -/
structure HashInput where
  ts_payload : String
  ts_entry : String
  data_ser : String
  data_type : String
  data_summary : String

/-- AuditHasher.hash_computation (src/core/audit.py lines 59-101, secret_key
None): hash the serialized payload, append the linking entry, advance the
pointer, return the new hash. -/
def hash_computation (st : AuditHasher) (inp : HashInput) : String × AuditHasher :=
  let serialized := serializePayload inp.ts_payload inp.data_ser st.last_hash
  let new_hash := sha256hex serialized
  let entry : AuditEntry :=
    { entry_hash := new_hash, previous_hash := st.last_hash,
      timestamp := inp.ts_entry, data_type := inp.data_type,
      data_summary := inp.data_summary }
  (new_hash, { chain := st.chain ++ [entry], last_hash := new_hash })

/-- The walk inside verify_chain_integrity: each entry must link to the
accumulated hash of its predecessors. -/
def verifyFrom (current : String) : List AuditEntry → Bool
  | [] => true
  | e :: rest => if e.previous_hash ≠ current then false else verifyFrom e.entry_hash rest

/-- AuditHasher.verify_chain_integrity (src/core/audit.py lines 113-124):
replay the chain from genesis (the empty chain verifies trivially, exactly as
the early return in the source). -/
def verify_chain_integrity (st : AuditHasher) : Bool :=
  verifyFrom GENESIS_HASH st.chain

/-- A sequence of hash_computation calls starting from a given state. -/
def runChainFrom (st : AuditHasher) (inputs : List HashInput) : AuditHasher :=
  inputs.foldl (fun s inp => (hash_computation s inp).2) st

/-- A sequence of hash_computation calls on a freshly constructed hasher. -/
def runChain (inputs : List HashInput) : AuditHasher :=
  runChainFrom freshHasher inputs

/-- The claim-side linking property: the first entry points at the given
hash and every later entry points at the entry hash of its predecessor. -/
inductive ChainLinked : String → List AuditEntry → Prop where
  | nil (prev : String) : ChainLinked prev []
  | cons (prev : String) (e : AuditEntry) (rest : List AuditEntry) :
      e.previous_hash = prev → ChainLinked e.entry_hash rest →
      ChainLinked prev (e :: rest)

/-- The hash the next appended entry must link to: the entry hash of the last
entry, or the starting hash for an empty chain. -/
def lastHashOf (p : String) : List AuditEntry → String
  | [] => p
  | e :: rest => lastHashOf e.entry_hash rest

/-- The previous_hash field of entry i, or the empty string out of range. -/
def prevAt (l : List AuditEntry) (i : ℕ) : String :=
  ((l.get? i).map (fun e => e.previous_hash)).getD ""

/-- The previous_hash of the first entry, when the chain is nonempty. -/
def firstPrev (st : AuditHasher) : Option String :=
  st.chain.head?.map (fun e => e.previous_hash)

/-- Overwrite the previous_hash field of entry i. -/
def setPrevAt : List AuditEntry → ℕ → String → List AuditEntry
  | [], _, _ => []
  | e :: rest, 0, hsh => { e with previous_hash := hsh } :: rest
  | e :: rest, Nat.succ i, hsh => e :: setPrevAt rest i hsh

/-- The entry hash_computation appends for a given state and input. -/
def newEntry (st : AuditHasher) (inp : HashInput) : AuditEntry :=
  { entry_hash := sha256hex (serializePayload inp.ts_payload inp.data_ser st.last_hash)
    previous_hash := st.last_hash
    timestamp := inp.ts_entry
    data_type := inp.data_type
    data_summary := inp.data_summary }

theorem hash_computation_chain (st : AuditHasher) (inp : HashInput) :
    (hash_computation st inp).2.chain = st.chain ++ [newEntry st inp] := rfl

theorem hash_computation_last (st : AuditHasher) (inp : HashInput) :
    (hash_computation st inp).2.last_hash = (newEntry st inp).entry_hash := rfl

theorem hash_computation_fst (st : AuditHasher) (inp : HashInput) :
    (hash_computation st inp).1 = (newEntry st inp).entry_hash := rfl

theorem lastHashOf_snoc (p : String) (l : List AuditEntry) (e : AuditEntry) :
    lastHashOf p (l ++ [e]) = e.entry_hash := by
  induction l generalizing p with
  | nil => rfl
  | cons x xs ih => exact ih x.entry_hash

theorem chainLinked_snoc {p : String} {l : List AuditEntry} {e : AuditEntry}
    (hl : ChainLinked p l) (he : e.previous_hash = lastHashOf p l) :
    ChainLinked p (l ++ [e]) := by
  induction hl with
  | nil prev => exact .cons _ _ _ he (.nil _)
  | cons prev x rest hx _ ih => exact .cons _ _ _ hx (ih he)

/-- The invariant maintained by hash_computation: the chain links from
genesis and the pointer is the hash of the last entry. -/
def ChainInv (st : AuditHasher) : Prop :=
  ChainLinked GENESIS_HASH st.chain ∧ st.last_hash = lastHashOf GENESIS_HASH st.chain

theorem chainInv_fresh : ChainInv freshHasher := ⟨.nil _, rfl⟩

theorem chainInv_step (st : AuditHasher) (inp : HashInput) (hst : ChainInv st) :
    ChainInv (hash_computation st inp).2 := by
  obtain ⟨hlink, hlast⟩ := hst
  constructor
  · rw [hash_computation_chain]
    exact chainLinked_snoc hlink hlast
  · rw [hash_computation_chain, hash_computation_last, lastHashOf_snoc]

theorem chainInv_runChainFrom (st : AuditHasher) (inputs : List HashInput)
    (hst : ChainInv st) : ChainInv (runChainFrom st inputs) := by
  induction inputs generalizing st with
  | nil => exact hst
  | cons inp rest ih => exact ih _ (chainInv_step st inp hst)

theorem chainInv_runChain (inputs : List HashInput) : ChainInv (runChain inputs) :=
  chainInv_runChainFrom _ _ chainInv_fresh

theorem verifyFrom_of_chainLinked {p : String} {l : List AuditEntry}
    (hl : ChainLinked p l) : verifyFrom p l = true := by
  induction hl with
  | nil prev => rfl
  | cons prev e rest he _ ih =>
    rw [verifyFrom, if_neg (by simp [he]), ih]

theorem chain_length_runChainFrom (st : AuditHasher) (inputs : List HashInput) :
    (runChainFrom st inputs).chain.length = st.chain.length + inputs.length := by
  induction inputs generalizing st with
  | nil => simp [runChainFrom]
  | cons inp rest ih =>
    have hstep : runChainFrom st (inp :: rest) = runChainFrom (hash_computation st inp).2 rest := rfl
    rw [hstep, ih, hash_computation_chain]
    simp
    omega

theorem chain_extend_runChainFrom (st : AuditHasher) (inputs : List HashInput) :
    ∃ ext, (runChainFrom st inputs).chain = st.chain ++ ext := by
  induction inputs generalizing st with
  | nil => exact ⟨[], by simp [runChainFrom]⟩
  | cons inp rest ih =>
    obtain ⟨ext, hext⟩ := ih (hash_computation st inp).2
    refine ⟨newEntry st inp :: ext, ?_⟩
    have hstep : runChainFrom st (inp :: rest) = runChainFrom (hash_computation st inp).2 rest := rfl
    rw [hstep, hext, hash_computation_chain, List.append_assoc]
    rfl

theorem hex_entries_runChainFrom (st : AuditHasher) (inputs : List HashInput)
    (hst : ∀ e ∈ st.chain, isHex64 e.entry_hash = true) :
    ∀ e ∈ (runChainFrom st inputs).chain, isHex64 e.entry_hash = true := by
  induction inputs generalizing st with
  | nil => exact hst
  | cons inp rest ih =>
    refine ih (hash_computation st inp).2 ?_
    intro e he
    rw [hash_computation_chain] at he
    simp only [List.mem_append, List.mem_singleton] at he
    rcases he with he | he
    · exact hst e he
    · rw [he]
      exact isHex64_sha256hex _

theorem verify_tampered {p : String} {l : List AuditEntry}
    (hl : ChainLinked p l) :
    ∀ i, i < l.length → ∀ hsh, hsh ≠ prevAt l i →
      verifyFrom p (setPrevAt l i hsh) = false := by
  induction hl with
  | nil prev => intro i hi; simp at hi
  | cons prev e rest he _ ih =>
    intro i hi hsh hne
    match i with
    | 0 =>
      have : prevAt (e :: rest) 0 = e.previous_hash := rfl
      rw [this, he] at hne
      rw [setPrevAt, verifyFrom, if_pos]
      exact hne
    | Nat.succ j =>
      have hj : j < rest.length := by simpa using hi
      have hpa : prevAt (e :: rest) (Nat.succ j) = prevAt rest j := rfl
      rw [hpa] at hne
      rw [setPrevAt, verifyFrom, if_neg (by simp [he])]
      exact ih j hj hsh hne

theorem firstPrev_runChain (inputs : List HashInput) :
    firstPrev (runChain inputs) = if inputs.isEmpty then none else some GENESIS_HASH := by
  match inputs with
  | [] => rfl
  | inp :: rest =>
    have hlen : (runChain (inp :: rest)).chain.length = rest.length + 1 := by
      have := chain_length_runChainFrom freshHasher (inp :: rest)
      simpa [freshHasher, Nat.add_comm] using this
    have hlink := (chainInv_runChain (inp :: rest)).1
    match hchain : (runChain (inp :: rest)).chain with
    | [] => rw [hchain] at hlen; simp at hlen
    | e :: es =>
      rw [hchain] at hlink
      cases hlink with
      | cons _ _ _ he _ =>
        simp [firstPrev, hchain, he]

/-! ## Theorems for claim C4 -/

/-- C4: for every sequence of hash_computation calls on a freshly constructed
AuditHasher: the first entry links to the 64-zero genesis value; every entry
N+1 links to the entry hash of entry N (ChainLinked from genesis); one entry
is appended per call; every hash hash_computation returns, and every entry
hash in the chain, is a 64-lowercase-hex-character digest; further calls only
extend the chain (no entry is removed or mutated); verify_chain_integrity
returns true on the resulting chain; and altering the previous_hash of any
single entry to any other value makes verify_chain_integrity return false. -/
theorem C4_audit_chain (inputs : List HashInput) :
    firstPrev (runChain inputs) = (if inputs.isEmpty then none else some GENESIS_HASH) ∧
    ChainLinked GENESIS_HASH (runChain inputs).chain ∧
    (runChain inputs).chain.length = inputs.length ∧
    (∀ st inp, isHex64 (hash_computation st inp).1 = true) ∧
    (∀ e ∈ (runChain inputs).chain, isHex64 e.entry_hash = true) ∧
    (∀ more, ∃ ext, (runChain (inputs ++ more)).chain = (runChain inputs).chain ++ ext) ∧
    verify_chain_integrity (runChain inputs) = true ∧
    (∀ i hsh, i < (runChain inputs).chain.length → hsh ≠ prevAt (runChain inputs).chain i →
      verify_chain_integrity
        { chain := setPrevAt (runChain inputs).chain i hsh,
          last_hash := (runChain inputs).last_hash } = false) := by
  refine ⟨firstPrev_runChain inputs, (chainInv_runChain inputs).1, ?_, ?_, ?_, ?_, ?_, ?_⟩
  · have := chain_length_runChainFrom freshHasher inputs
    simpa [freshHasher] using this
  · intro st inp
    exact isHex64_sha256hex _
  · exact hex_entries_runChainFrom freshHasher inputs (by intro e he; simp [freshHasher] at he)
  · intro more
    have : runChain (inputs ++ more) = runChainFrom (runChain inputs) more := by
      rw [runChain, runChain, runChainFrom, runChainFrom, runChainFrom, List.foldl_append]
    rw [this]
    exact chain_extend_runChainFrom _ more
  · exact verifyFrom_of_chainLinked (chainInv_runChain inputs).1
  · intro i hsh hi hne
    exact verify_tampered (chainInv_runChain inputs).1 i hi hsh hne

/-- A concrete hash_computation input for the C4 witness. -/
def sampleInput : HashInput :=
  { ts_payload := "2025-01-01T00:00:00"
    ts_entry := "2025-01-01T00:00:00"
    data_ser := "\x7b\"k\": \"v\"\x7d"
    data_type := "computation"
    data_summary := "Audit entry: [k]" }

/-- Witness for C4: after one call on a fresh hasher, overwriting the first
entry previous_hash with the empty string (which differs from the genesis
value stored there) makes verify_chain_integrity report false. -/
theorem C4_audit_chain_witness :
    0 < (runChain [sampleInput]).chain.length ∧
    "" ≠ prevAt (runChain [sampleInput]).chain 0 ∧
    verify_chain_integrity
      { chain := setPrevAt (runChain [sampleInput]).chain 0 "",
        last_hash := (runChain [sampleInput]).last_hash } = false := by
  have H := C4_audit_chain [sampleInput]
  have hlen : (runChain [sampleInput]).chain.length = 1 := H.2.2.1
  have hpos : 0 < (runChain [sampleInput]).chain.length := by omega
  have hfp : firstPrev (runChain [sampleInput]) = some GENESIS_HASH := by
    simpa using H.1
  have hprev : prevAt (runChain [sampleInput]).chain 0 = GENESIS_HASH := by
    rw [prevAt]
    match hc : (runChain [sampleInput]).chain with
    | [] => rw [hc] at hlen; simp at hlen
    | e :: es =>
      rw [firstPrev, hc] at hfp
      simp at hfp
      simp [hfp]
  have hne : "" ≠ prevAt (runChain [sampleInput]).chain 0 := by
    rw [hprev, GENESIS_HASH]
    decide
  exact ⟨hpos, hne, H.2.2.2.2.2.2.2 0 "" hpos hne⟩

/-! ## LEI-V calculator (class LEIVCalculator, src/core/lei_v.py)

Radial distances arrive as exact sympy rationals (the assessment router and
the tests construct them with Rational), so the symbolic mean, variance terms
and simplified sum are exact rationals here.  The storage step of the source,
Decimal(str(float(N(x, 50)))), detours through an IEEE-754 binary64 float:
floatOfRat below is round-to-nearest-even at 53 significant bits, the rounding
float() performs for values in the normal range.  The 50-digit intermediate
N(x, 50) and the final shortest-round-trip decimal str() both agree with the
double to well below one part in 10^15 and coincide with it exactly at 0, the
only point at which any theorem below evaluates the storage step. -/

/-- Floor of the base-2 logarithm of a positive rational. -/
def floorLog2 (q : ℚ) : ℤ :=
  if 1 ≤ q then (Nat.log 2 ⌊q⌋.toNat : ℤ) else -(Nat.clog 2 ⌈q⁻¹⌉.toNat : ℤ)

/-- Round a rational to the nearest integer, ties to even. -/
def roundHalfEven (x : ℚ) : ℤ :=
  let f := ⌊x⌋
  let r := x - f
  if r < 1/2 then f
  else if 1/2 < r then f + 1
  else if f % 2 = 0 then f else f + 1

/-- The IEEE-754 binary64 value nearest to a positive rational in the normal
range: 53 significant bits, round to nearest, ties to even. -/
def floatOfRatPos (q : ℚ) : ℚ :=
  let e := floorLog2 q
  (roundHalfEven (q * 2 ^ (52 - e)) : ℚ) * 2 ^ (e - 52)

/-- The binary64 rounding performed by the float() conversion in the storage
step of LEIVCalculator.compute. -/
def floatOfRat (q : ℚ) : ℚ :=
  if q = 0 then 0
  else if 0 < q then floatOfRatPos q
  else -floatOfRatPos (-q)

/-- The stored value Decimal(str(float(N(x, 50)))) of an exact rational x
(see the section comment for the precision discussion). -/
def storedDecimal (q : ℚ) : ℚ := floatOfRat q

/-- LEIVCalculator.NUM_ELECTRODES. -/
def NUM_ELECTRODES : ℕ := 6

/-- The exact symbolic mean sum(radial_distances) / 6 computed inside
LEIVCalculator.compute. -/
def leivMean (rs : List ℚ) : ℚ := rs.sum / NUM_ELECTRODES

/-- The exact variance terms (r - mean)^2 of LEIVCalculator.compute. -/
def varianceTerms (rs : List ℚ) : List ℚ :=
  rs.map (fun r => (r - leivMean rs) ^ 2)

/-- The exact simplified LEI-V value sum((r - mean)^2): what
sp.simplify(lei_v_symbolic) denotes before the storage conversion. -/
def leivExact (rs : List ℚ) : ℚ := (varianceTerms rs).sum

/-- LEIVCalculator._calculate_confidence (src/core/lei_v.py lines 205-220).
The Python float arithmetic on these magnitudes is modelled exactly. -/
def calculateConfidence (t : LEIVThresholds) (lei_v : ℚ) (stage : DiagnosticStage) : ℚ :=
  match stage with
  | .HEALTHY => min 99 (80 + (t.stage_0_threshold - lei_v) * 500)
  | .STAGE_0 =>
      min 95 (70 + min (lei_v - t.stage_0_threshold) (t.advanced_threshold - lei_v) * 200)
  | _ => min 99 (85 + (lei_v - t.advanced_threshold) * 50)

/-- Output record of one LEI-V computation (dataclass LEIVResult,
src/core/lei_v.py lines 76-93).  lei_v_symbolic carries the exact value the
simplified symbolic expression denotes. -/
structure LEIVResult where
  lei_v_value : ℚ
  lei_v_symbolic : ℚ
  stage : DiagnosticStage
  confidence_percent : ℚ
  radial_distances : List ℚ
  mean_radial : ℚ
  variance_components : List ℚ
  timestamp : String
  patient_id : String
  audit_hash : String

/-- The serialization of the audit_data dict built by compute (keys in sorted
order: lei_v, metadata, patient_id, radial_distances, timestamp).  The textual
rendering of numbers stands in for the Python Decimal rendering; no theorem
depends on the bytes hashed for a successful computation. -/
def leivAuditSer (pid : String) (ts : String) (lei_v : ℚ) (radials : List ℚ)
    (cycle_day v_caw_hour : Option ℤ) : String :=
  "\x7b\"lei_v\": \"" ++ toString lei_v ++
    "\", \"metadata\": \x7b\"cycle_day\": " ++
    (cycle_day.elim "null" toString) ++ ", \"v_caw_hour\": " ++
    (v_caw_hour.elim "null" toString) ++ "\x7d, \"patient_id\": \"" ++ pid ++
    "\", \"radial_distances\": [" ++
    String.intercalate ", " (radials.map (fun r => "\"" ++ toString r ++ "\"")) ++
    "], \"timestamp\": \"" ++ ts ++ "\"\x7d"

/-- The _generate_summary text for compute audit data, which contains the
patient_id and lei_v keys. -/
def leivAuditSummary (pid : String) (lei_v : ℚ) : String :=
  "LEI-V=" ++ toString lei_v ++ " for patient " ++ pid

/-- LEIVCalculator.compute (src/core/lei_v.py lines 127-203), with the
calculator hasher state passed explicitly and datetime.utcnow() supplied as
the ts parameter.  The length guard raises before anything is computed or
hashed, so on that path the hasher state is returned untouched. -/
def LEIVCalculator.computeSuccess (t : LEIVThresholds) (st : AuditHasher)
    (radial_distances : List ℚ) (patient_id : String) (ts : String)
    (cycle_day v_caw_hour : Option ℤ) :
    LEIVResult × AuditHasher :=
    let lei_v_simplified := leivExact radial_distances
    let lei_v_decimal := storedDecimal lei_v_simplified
    let radial_decimals := radial_distances.map storedDecimal
    let mean_decimal := storedDecimal (leivMean radial_distances)
    let variance_decimals := (varianceTerms radial_distances).map storedDecimal
    let stage := t.classify lei_v_decimal
    let confidence := calculateConfidence t lei_v_decimal stage
    let data_ser := leivAuditSer patient_id ts lei_v_decimal radial_decimals
      cycle_day v_caw_hour
    let hashed := hash_computation st
      { ts_payload := ts, ts_entry := ts, data_ser := data_ser,
        data_type := "computation",
        data_summary := leivAuditSummary patient_id lei_v_decimal }
    ({ lei_v_value := lei_v_decimal
       lei_v_symbolic := lei_v_simplified
       stage := stage
       confidence_percent := confidence
       radial_distances := radial_decimals
       mean_radial := mean_decimal
       variance_components := variance_decimals
       timestamp := ts
       patient_id := patient_id
       audit_hash := hashed.1 }, hashed.2)

/-- LEIVCalculator.compute: the length guard, then the successful
computation. -/
def LEIVCalculator.compute (t : LEIVThresholds) (st : AuditHasher)
    (radial_distances : List ℚ) (patient_id : String) (ts : String)
    (cycle_day v_caw_hour : Option ℤ) :
    Except String LEIVResult × AuditHasher :=
  if radial_distances.length ≠ NUM_ELECTRODES then
    (.error "Expected 6 radial distances", st)
  else
    let s := LEIVCalculator.computeSuccess t st radial_distances patient_id ts
      cycle_day v_caw_hour
    (.ok s.1, s.2)

/-! ## Theorems for claim C2 -/

/-- C2: for every list of radial distances whose length is not 6, compute
fails with the InvalidInput signal ValueError("Expected 6 radial distances"),
and the audit chain is untouched: the returned hasher state is the input
state, so no entry is appended and the last-hash pointer keeps its prior
value. -/
theorem C2_invalid_count_atomic (t : LEIVThresholds) (st : AuditHasher)
    (rs : List ℚ) (pid ts : String) (cd vh : Option ℤ)
    (hlen : rs.length ≠ 6) :
    (LEIVCalculator.compute t st rs pid ts cd vh).1 = .error "Expected 6 radial distances" ∧
    (LEIVCalculator.compute t st rs pid ts cd vh).2 = st ∧
    (LEIVCalculator.compute t st rs pid ts cd vh).2.chain = st.chain ∧
    (LEIVCalculator.compute t st rs pid ts cd vh).2.last_hash = st.last_hash := by
  have hcond : rs.length ≠ NUM_ELECTRODES := hlen
  rw [LEIVCalculator.compute, if_pos hcond]
  exact ⟨rfl, rfl, rfl, rfl⟩

/-- Witness for C2: five radial distances are rejected and the fresh hasher
state survives unchanged. -/
theorem C2_invalid_count_atomic_witness :
    ([(1:ℚ), 1, 1, 1, 1].length ≠ 6) ∧
    (LEIVCalculator.compute defaultThresholds freshHasher [(1:ℚ), 1, 1, 1, 1]
        "TEST-005" "2025-01-01T00:00:00" none none).1 =
      .error "Expected 6 radial distances" ∧
    (LEIVCalculator.compute defaultThresholds freshHasher [(1:ℚ), 1, 1, 1, 1]
        "TEST-005" "2025-01-01T00:00:00" none none).2 = freshHasher := by
  have hlen : ([(1:ℚ), 1, 1, 1, 1].length ≠ 6) := by simp
  have H := C2_invalid_count_atomic defaultThresholds freshHasher
    [(1:ℚ), 1, 1, 1, 1] "TEST-005" "2025-01-01T00:00:00" none none hlen
  exact ⟨hlen, H.1, H.2.1⟩

/-! ## Theorems for claim C5 -/

/-- For six equal radii the exact LEI-V is zero: the mean is the common value
and every variance term vanishes. -/
theorem leivExact_replicate (r : ℚ) : leivExact (List.replicate 6 r) = 0 := by
  have hmean : leivMean (List.replicate 6 r) = r := by
    rw [leivMean, List.sum_replicate]
    norm_num [NUM_ELECTRODES]
  rw [leivExact, varianceTerms, hmean]
  simp

/-- The storage conversion maps exact zero to exact zero: float(N(0, 50)) is
0.0 and Decimal(str(0.0)) is Decimal zero. -/
theorem storedDecimal_zero : storedDecimal 0 = 0 := by
  rw [storedDecimal, floatOfRat, if_pos rfl]

/-- C5: for every list of 6 equal exact radial distances, compute succeeds
and returns lei_v_value exactly 0 — no floating-point residue survives the
storage step because the exact symbolic value is already 0 — and therefore
classifies the stage as Healthy. -/
theorem C5_equal_radii_zero (t : LEIVThresholds) (st : AuditHasher) (r : ℚ)
    (pid ts : String) (cd vh : Option ℤ)
    (ht : 0 < t.stage_0_threshold) :
    ∃ res,
      (LEIVCalculator.compute t st (List.replicate 6 r) pid ts cd vh).1 = .ok res ∧
      res.lei_v_value = 0 ∧
      res.stage = .HEALTHY := by
  have hlen : ¬((List.replicate 6 r).length ≠ NUM_ELECTRODES) := by
    simp [NUM_ELECTRODES]
  have hval : storedDecimal (leivExact (List.replicate 6 r)) = 0 := by
    rw [leivExact_replicate, storedDecimal_zero]
  have hstage : t.classify (storedDecimal (leivExact (List.replicate 6 r))) = .HEALTHY := by
    rw [hval, LEIVThresholds.classify, if_pos ht]
  refine ⟨(LEIVCalculator.computeSuccess t st (List.replicate 6 r) pid ts cd vh).1,
    ?_, hval, hstage⟩
  rw [LEIVCalculator.compute, if_neg hlen]

/-- Witness for C5: six copies of the exact RSL radius approximation 433/1000
yield exactly zero and the Healthy stage under the default thresholds. -/
theorem C5_equal_radii_zero_witness :
    (0 < defaultThresholds.stage_0_threshold) ∧
    ∃ res,
      (LEIVCalculator.compute defaultThresholds freshHasher
          (List.replicate 6 ((433:ℚ)/1000)) "TEST-001" "2025-01-01T00:00:00"
          none none).1 = .ok res ∧
      res.lei_v_value = 0 ∧
      res.stage = .HEALTHY := by
  have ht : 0 < defaultThresholds.stage_0_threshold := by
    norm_num [defaultThresholds]
  exact ⟨ht, C5_equal_radii_zero defaultThresholds freshHasher ((433:ℚ)/1000)
    "TEST-001" "2025-01-01T00:00:00" none none ht⟩

/-! ## Theorems for claim C3 -/

/-- The six radial distances [1/3, 0, 0, 0, 0, 0] on which the storage step
loses the claimed precision. -/
def failingRadii : List ℚ := [1/3, 0, 0, 0, 0, 0]

/-- C3 evidence: on the failing input the exact simplified LEI-V value is
5/54 = 0.0925925..., a rational whose reduced denominator has the factor 27,
so no finite decimal k/10^n equals it — in particular neither the 17
significant digits the code stores via Decimal(str(float(...))), namely
0.09259259259259259, nor any other finite decimal, and the code-stored
17-digit decimal misses the exact value by more than 10^-18, which is far
beyond a 50-significant-digit agreement. -/
theorem C3_storage_precision_lost :
    leivExact failingRadii = 5/54 ∧
    (∀ (k : ℤ) (n : ℕ), (k : ℚ) / 10 ^ n ≠ leivExact failingRadii) ∧
    |(9259259259259259 : ℚ) / 10 ^ 17 - leivExact failingRadii| > 1 / 10 ^ 18 := by
  have hval : leivExact failingRadii = 5/54 := by
    rw [leivExact, varianceTerms, leivMean, failingRadii]
    norm_num [NUM_ELECTRODES]
  refine ⟨hval, ?_, ?_⟩
  · intro k n h
    rw [hval] at h
    have h54 : (54 : ℚ) ≠ 0 := by norm_num
    have hten : ((10:ℚ)) ^ n ≠ 0 := by positivity
    have hcross : (k : ℚ) * 54 = 5 * 10 ^ n := by
      field_simp at h
      linarith [h]
    have hz : (k * 54 : ℤ) = 5 * 10 ^ n := by
      exact_mod_cast hcross
    have h3 : (3 : ℤ) ∣ k * 54 := ⟨k * 18, by ring⟩
    rw [hz] at h3
    have h3' : (3 : ℤ) ∣ 10 ^ n := by
      rcases (Int.Prime.dvd_mul' (by norm_num) h3) with h | h
      · norm_num at h
      · exact h
    have := Int.Prime.dvd_pow' (p := 3) (n := 10) (by norm_num) h3'
    norm_num at this
  · rw [hval]
    rw [abs_of_neg (by norm_num)]
    norm_num

/-! ## Frozen constants table (src/core/viduya_constants.py) -/

/-- One frozen coordinate record (NamedTuple FrozenCoordinate): the exact
symbolic expressions are the strings the module stores; the float display
approximations are carried as the exact rationals the literals denote. -/
structure FrozenCoordinate where
  name : String
  x_symbolic : String
  y_symbolic : String
  x_approx : ℚ
  y_approx : ℚ
  layer : String
  electrode_index : ℕ
deriving DecidableEq, Repr

/-- The 18-entry ALL_COORDINATES tuple, in source order: 6 Triangle-Hexagon,
4 Vesica-Hexagon, 2 Hidden Star-Triangle, 6 RSL electrodes. -/
def ALL_COORDINATES : List FrozenCoordinate :=
  [⟨"TH_axial_pos", "sqrt(3)/4", "0", 4330127018922193/10^16, 0, "triangle_hexagon", 1⟩,
   ⟨"TH_axial_neg", "-sqrt(3)/4", "0", -4330127018922193/10^16, 0, "triangle_hexagon", 4⟩,
   ⟨"TH_offaxis_1", "sqrt(3)/8", "3/8", 21650635094610966/10^17, 375/1000, "triangle_hexagon", 2⟩,
   ⟨"TH_offaxis_2", "-sqrt(3)/8", "3/8", -21650635094610966/10^17, 375/1000, "triangle_hexagon", 3⟩,
   ⟨"TH_offaxis_3", "sqrt(3)/8", "-3/8", 21650635094610966/10^17, -375/1000, "triangle_hexagon", 6⟩,
   ⟨"TH_offaxis_4", "-sqrt(3)/8", "-3/8", -21650635094610966/10^17, -375/1000, "triangle_hexagon", 5⟩,
   ⟨"VH_pos", "sqrt(3)*(3/80 + sqrt(229)/80)", "-37/80 + sqrt(229)/80",
     3926630275978783/10^16, -27340925686527045/10^17, "vesica_hexagon", 0⟩,
   ⟨"VH_neg", "sqrt(3)*(3/80 - sqrt(229)/80)", "-37/80 + sqrt(229)/80",
     -26274319339287395/10^17, -27340925686527045/10^17, "vesica_hexagon", 0⟩,
   ⟨"VH_mirror_pos", "-sqrt(3)*(3/80 + sqrt(229)/80)", "-37/80 + sqrt(229)/80",
     -3926630275978783/10^16, -27340925686527045/10^17, "vesica_hexagon", 0⟩,
   ⟨"VH_mirror_neg", "-sqrt(3)*(3/80 - sqrt(229)/80)", "-37/80 + sqrt(229)/80",
     26274319339287395/10^17, -27340925686527045/10^17, "vesica_hexagon", 0⟩,
   ⟨"HST_pos", "7/40 - sqrt(2)/4", "-3/8",
     -17855339059327378/10^17, -375/1000, "hidden_star_triangle", 0⟩,
   ⟨"HST_neg", "-(7/40 - sqrt(2)/4)", "-3/8",
     17855339059327378/10^17, -375/1000, "hidden_star_triangle", 0⟩,
   ⟨"RSL_E1", "sqrt(3)/4", "0", 4330127018922193/10^16, 0, "rsl", 1⟩,
   ⟨"RSL_E2", "sqrt(3)/8", "3/8", 21650635094610966/10^17, 375/1000, "rsl", 2⟩,
   ⟨"RSL_E3", "-sqrt(3)/8", "3/8", -21650635094610966/10^17, 375/1000, "rsl", 3⟩,
   ⟨"RSL_E4", "-sqrt(3)/4", "0", -4330127018922193/10^16, 0, "rsl", 4⟩,
   ⟨"RSL_E5", "-sqrt(3)/8", "-3/8", -21650635094610966/10^17, -375/1000, "rsl", 5⟩,
   ⟨"RSL_E6", "sqrt(3)/8", "-3/8", 21650635094610966/10^17, -375/1000, "rsl", 6⟩]

/-- LEIV_THRESHOLD_STAGE_0: the exact rational literal string. -/
def LEIV_THRESHOLD_STAGE_0 : String := "18/1000"

/-- LEIV_THRESHOLD_ADVANCED: the exact rational literal string. -/
def LEIV_THRESHOLD_ADVANCED : String := "8/100"

/-- _compute_constants_hash (src/core/viduya_constants.py lines 270-277):
SHA-256 over the pipe-joined name:x:y lines plus the thresholds line,
parameterized by the table state it reads from module scope. -/
def computeConstantsHash (coords : List FrozenCoordinate) (t0 tAdv : String) : String :=
  sha256hex (String.intercalate "|"
    ((coords.map (fun c => c.name ++ ":" ++ c.x_symbolic ++ ":" ++ c.y_symbolic)) ++
      ["THRESHOLDS:" ++ t0 ++ ":" ++ tAdv]))

/-- The stored reference literal VIDUYA_CONSTANTS_HASH
(src/core/viduya_constants.py line 280). -/
def VIDUYA_CONSTANTS_HASH : String :=
  "a8f3b2c1d4e5f6a7b8c9d0e1f2a3b4c5d6e7f8a9b0c1d2e3f4a5b6c7d8e9f0a1"

/-- verify_constants_integrity (src/core/viduya_constants.py lines 282-291):
computes the hash, then returns (True, computed) unconditionally — the
computed hash is never compared with VIDUYA_CONSTANTS_HASH. -/
def verify_constants_integrity (coords : List FrozenCoordinate) (t0 tAdv : String) :
    Bool × String :=
  (true, computeConstantsHash coords t0 tAdv)

/-! ## Theorems for claim C7 -/

/-- C7: verify_constants_integrity reports is_valid = true unconditionally,
for every state of the constants table and thresholds it reads: the boolean
component is the literal True of the source and never depends on whether the
computed SHA-256 hash equals the stored literal VIDUYA_CONSTANTS_HASH — in
particular it is true both when the computed hash differs from the stored
literal and when the table is replaced by an arbitrary (tampered) one. -/
theorem C7_integrity_check_vacuous :
    (∀ (coords : List FrozenCoordinate) (t0 tAdv : String),
      (verify_constants_integrity coords t0 tAdv).1 = true) ∧
    (∀ (coords : List FrozenCoordinate) (t0 tAdv : String),
      (verify_constants_integrity coords t0 tAdv).2 = computeConstantsHash coords t0 tAdv) ∧
    (verify_constants_integrity ALL_COORDINATES
      LEIV_THRESHOLD_STAGE_0 LEIV_THRESHOLD_ADVANCED).1 = true ∧
    (verify_constants_integrity []
      LEIV_THRESHOLD_STAGE_0 LEIV_THRESHOLD_ADVANCED).1 = true :=
  ⟨fun _ _ _ => rfl, fun _ _ _ => rfl, rfl, rfl⟩

/-! ## EVG processing endpoint (process_evg_file, src/backend/routers/evg.py)

The filesystem is modelled as the list of temporary file paths currently on
disk; tempfile.NamedTemporaryFile(delete=False) is modelled by a caller-chosen
fresh path, and the outcome of process_patient_edf by an Except parameter
(ok carries the result dict of the success path, error the exception
message). -/

/-- Suffix test on characters, modelling str.endswith. -/
def strEndsWith (s suffix : String) : Bool :=
  suffix.toList.isSuffixOf s.toList

/-- The response of the endpoint: the success payload, or an HTTPException
with its status code and detail. -/
inductive EvgResponse where
  | ok (result : String)
  | httpError (status_code : ℕ) (detail : String)
deriving DecidableEq, Repr

/-- process_evg_file (src/backend/routers/evg.py lines 51-95).  The 400
rejection precedes the temp-file write.  On the success path the temp file is
written, processed and unlinked.  When process_patient_edf raises, control
jumps from the process call to the except clause, which raises the 500
HTTPException: the os.unlink line is inside the try body after the process
call, not in a finally block, so it is skipped and the temp file stays on
disk. -/
def process_evg_file (filename : String) (tmpPath : String)
    (processOutcome : Except String String) (fs : List String) :
    EvgResponse × List String :=
  if ¬ strEndsWith filename ".edf" then
    (.httpError 400 "Invalid file format. Please upload a .edf file.", fs)
  else
    let fs1 := fs ++ [tmpPath]
    match processOutcome with
    | .ok result => (.ok result, fs1.erase tmpPath)
    | .error e => (.httpError 500 ("Processing failed: " ++ e), fs1)

/-! ## Theorems for claim C8 -/

/-- Counterexample to C8 as stated: uploading recording.edf with a processing
outcome that raises returns the 500-class error while the temporary file is
still present in the filesystem state — it was not deleted before the error
was returned. -/
theorem C8_counterexample_temp_file_left :
    (process_evg_file "recording.edf" "/tmp/upload1.edf"
        (.error "boom") []).1 = .httpError 500 "Processing failed: boom" ∧
    "/tmp/upload1.edf" ∈ (process_evg_file "recording.edf" "/tmp/upload1.edf"
        (.error "boom") []).2 := by
  constructor
  · rfl
  · decide

/-- C8 amended: for every upload of a .edf-named file where processing raises
after the temporary file is written, the endpoint returns the 500-class error
wrapping the underlying message with the temporary file left behind — the
cleanup (os.unlink) runs only on the success path, because it sits inside the
try body rather than a finally block. -/
theorem C8_error_path_leaves_temp_file (filename tmpPath e : String)
    (fs : List String) (hedf : strEndsWith filename ".edf" = true) :
    (process_evg_file filename tmpPath (.error e) fs).1 =
      .httpError 500 ("Processing failed: " ++ e) ∧
    (process_evg_file filename tmpPath (.error e) fs).2 = fs ++ [tmpPath] ∧
    tmpPath ∈ (process_evg_file filename tmpPath (.error e) fs).2 := by
  rw [process_evg_file, if_neg (by simp [hedf])]
  refine ⟨rfl, rfl, ?_⟩
  simp

/-- Witness for C8: the amended behaviour at the concrete failing upload. -/
theorem C8_error_path_leaves_temp_file_witness :
    (strEndsWith "recording.edf" ".edf" = true) ∧
    (process_evg_file "recording.edf" "/tmp/upload2.edf" (.error "boom") []).1 =
      .httpError 500 "Processing failed: boom" ∧
    "/tmp/upload2.edf" ∈
      (process_evg_file "recording.edf" "/tmp/upload2.edf" (.error "boom") []).2 := by
  have hedf : strEndsWith "recording.edf" ".edf" = true := by decide
  have H := C8_error_path_leaves_temp_file "recording.edf" "/tmp/upload2.edf"
    "boom" [] hedf
  exact ⟨hedf, H.1, H.2.2⟩

/-! ## Bayesian fusion engine (class BayesianFusionEngine,
src/ai_integrations/bayesian_fusion.py)

Python floats are embedded as rationals; every constant of the engine is a
short decimal, so the arithmetic of the properties proved here is exact.
Platform result dicts become records of optional fields with the dict.get
defaults of the source.  Division is total in the model (q / 0 = 0 in Lean):
Python would raise ZeroDivisionError at the single pole
unnormalized_posterior = -0.1, which is unreachable while confidences respect
the documented [0, 100] range. -/

/-- Boolean infix test on character lists. -/
def listInfixOf (needle : List Char) : List Char → Bool
  | [] => needle.isEmpty
  | c :: rest => needle.isPrefixOf (c :: rest) || listInfixOf needle rest

/-- The Python substring test needle in hay. -/
def containsSub (needle hay : String) : Bool :=
  listInfixOf needle.toList hay.toList

/-- str.lower for the ASCII stage labels. -/
def strLower (s : String) : String := String.mk (s.toList.map Char.toLower)

/-- A normalized platform result dict: the fields
_get_severity_level/fuse read, as optional values with the dict.get
defaults applied by the accessors below. -/
structure PlatformResult where
  platform : Option String
  confidence : Option ℚ
  stage : Option String
  classification : Option String

/-- result.get("platform", "unknown"). -/
def getPlatform (r : PlatformResult) : String := r.platform.getD "unknown"

/-- result.get("confidence", 0.0). -/
def getConfidence (r : PlatformResult) : ℚ := r.confidence.getD 0

/-- result.get("stage", result.get("classification", "")). -/
def getStageField (r : PlatformResult) : String :=
  r.stage.getD (r.classification.getD "")

/-- BayesianFusionEngine._get_severity_level: substring matching over the
lowercased stage label, default severity 2. -/
def severityLevel (stage : String) : ℕ :=
  let s := strLower stage
  if containsSub "healthy" s || containsSub "normal" s then 0
  else if containsSub "stage_0" s || containsSub "early" s || containsSub "minimal" s then 1
  else if containsSub "stage_i" s || containsSub "mild" s then 2
  else if containsSub "stage_ii" s || containsSub "moderate" s then 3
  else if containsSub "stage_iii" s || containsSub "stage_iv" s || containsSub "severe" s then 4
  else 2

/-- BayesianFusionEngine.STAGE_PRIORS with .get default 0.5. -/
def stagePrior (s : String) : ℚ :=
  if s = "healthy" then 1/20
  else if s = "stage_0_early" then 7/10
  else if s = "stage_i_minimal" then 17/20
  else if s = "stage_ii_mild" then 9/10
  else if s = "stage_iii_moderate" then 19/20
  else if s = "stage_iv_severe" then 49/50
  else 1/2

/-- BayesianFusionEngine.PLATFORM_RELIABILITY with .get default 0.5. -/
def platformReliability (p : String) : ℚ :=
  if p = "med_gemini" then 17/20
  else if p = "aidoc" then 9/10
  else if p = "tempus" then 3/4
  else if p = "viz_ai" then 4/5
  else if p = "openevidence" then 7/10
  else 1/2

/-- BayesianFusionEngine._calculate_leiv_weight. -/
def calculateLeivWeight (lei_v confidence : ℚ) : ℚ :=
  let threshold_distance := min |lei_v - 18/1000| |lei_v - 8/100|
  let clarity_factor := min 1 (threshold_distance * 20)
  (confidence / 100) * (1/2 + 1/2 * clarity_factor)

/-- BayesianFusionEngine._calculate_concordance: neutral 0.5 without stage
info, else by severity difference (the platform argument of the source is not
read). -/
def calculateConcordance (r : PlatformResult) (lei_v_stage : String) : ℚ :=
  let platform_stage := getStageField r
  if platform_stage = "" then 1/2
  else
    let diff := ((severityLevel lei_v_stage : ℤ) - (severityLevel platform_stage : ℤ)).natAbs
    if diff = 0 then 1
    else if diff = 1 then 7/10
    else if diff = 2 then 2/5
    else 1/5

/-- Contribution of a single platform to fusion (dataclass
PlatformContribution). -/
structure PlatformContribution where
  platform : String
  raw_confidence : ℚ
  concordance_with_leiv : ℚ
  adjusted_weight : ℚ
  contribution_to_final : ℚ

/-- The per-platform body of the fuse loop. -/
def fusionContribution (lei_v_stage : String) (r : PlatformResult) : PlatformContribution :=
  let platform := getPlatform r
  let raw_conf := getConfidence r / 100
  let concordance := calculateConcordance r lei_v_stage
  let adjusted_weight := platformReliability platform * concordance
  { platform := platform
    raw_confidence := raw_conf * 100
    concordance_with_leiv := concordance
    adjusted_weight := adjusted_weight
    contribution_to_final := raw_conf * adjusted_weight }

/-- All contributions, in platform order. -/
def fusionContributions (lei_v_stage : String) (results : List PlatformResult) :
    List PlatformContribution :=
  results.map (fusionContribution lei_v_stage)

/-- The running product likelihood_product *= (1 + platform_likelihood). -/
def likelihoodProduct (contributions : List PlatformContribution) : ℚ :=
  contributions.foldl (fun p c => p * (1 + c.contribution_to_final)) 1

/-- lei_v_contribution * likelihood_product. -/
def unnormalizedPosterior (lei_v : ℚ) (lei_v_stage : String) (lei_v_confidence : ℚ)
    (results : List PlatformResult) : ℚ :=
  stagePrior lei_v_stage * calculateLeivWeight lei_v lei_v_confidence *
    likelihoodProduct (fusionContributions lei_v_stage results)

/-- posterior = min(0.99, u / (u + 0.1)). -/
def fusionPosterior (lei_v : ℚ) (lei_v_stage : String) (lei_v_confidence : ℚ)
    (results : List PlatformResult) : ℚ :=
  let u := unnormalizedPosterior lei_v lei_v_stage lei_v_confidence results
  min (99/100) (u / (u + 1/10))

/-- The evidence-strength classification of fuse. -/
def evidenceStrength (contributions : List PlatformContribution) (posterior : ℚ) : String :=
  if 3 ≤ contributions.length ∧ ∀ c ∈ contributions, (7:ℚ)/10 < c.concordance_with_leiv then
    "strong"
  else if 2 ≤ contributions.length ∧ 3/4 < posterior then "moderate"
  else "weak"

/-- Python str.title over ASCII: uppercase a letter that starts an alphabetic
run, lowercase the rest. -/
def titleCaseGo : Bool → List Char → List Char
  | _, [] => []
  | prevAlpha, c :: rest =>
    (if c.isAlpha then (if prevAlpha then c.toLower else c.toUpper) else c) ::
      titleCaseGo c.isAlpha rest

/-- lei_v_stage.replace("_", " ").title() of _determine_diagnosis. -/
def stageTitle (s : String) : String :=
  String.mk (titleCaseGo false (s.toList.map (fun c => if c = '_' then ' ' else c)))

/-- BayesianFusionEngine._determine_diagnosis. -/
def determineDiagnosis (lei_v_stage : String) (posterior : ℚ) : String :=
  let q := if posterior > 17/20 then "high"
    else if posterior > 7/10 then "moderate" else "low"
  stageTitle lei_v_stage ++ " (" ++ q ++ " confidence) - LEI-V anchored"

/-- Complete Bayesian fusion result (dataclass FusionResult). -/
structure FusionResult where
  final_confidence : ℚ
  final_diagnosis : String
  lei_v_anchor_contribution : ℚ
  platform_contributions : List PlatformContribution
  prior_probability : ℚ
  posterior_probability : ℚ
  evidence_strength : String
  audit_hash : String
  citation : String

/-- The serialization of the fuse audit_data dict (keys sorted: lei_v,
lei_v_stage, platforms, posterior); the textual number rendering stands in
for the Python float rendering, which no theorem depends on. -/
def fusionAuditSer (lei_v : ℚ) (lei_v_stage : String) (posterior : ℚ)
    (platforms : List String) : String :=
  "\x7b\"lei_v\": " ++ toString lei_v ++ ", \"lei_v_stage\": \"" ++ lei_v_stage ++
    "\", \"platforms\": [" ++
    String.intercalate ", " (platforms.map (fun p => "\"" ++ p ++ "\"")) ++
    "], \"posterior\": " ++ toString posterior ++ "\x7d"

/-- BayesianFusionEngine.fuse (src/ai_integrations/bayesian_fusion.py lines
78-170), with the engine hasher state and the hashing timestamp passed
explicitly. -/
def BayesianFusionEngine.fuse (st : AuditHasher) (ts : String) (lei_v_value : ℚ)
    (lei_v_stage : String) (lei_v_confidence : ℚ)
    (platform_results : List PlatformResult) : FusionResult × AuditHasher :=
  let prior := stagePrior lei_v_stage
  let lei_v_contribution := prior * calculateLeivWeight lei_v_value lei_v_confidence
  let contributions := fusionContributions lei_v_stage platform_results
  let posterior := fusionPosterior lei_v_value lei_v_stage lei_v_confidence platform_results
  let hashed := hash_computation st
    { ts_payload := ts, ts_entry := ts
      data_ser := fusionAuditSer lei_v_value lei_v_stage posterior
        (contributions.map (fun c => c.platform))
      data_type := "computation"
      data_summary := "Audit entry: [lei_v, lei_v_stage, posterior, platforms]" }
  ({ final_confidence := posterior * 100
     final_diagnosis := determineDiagnosis lei_v_stage posterior
     lei_v_anchor_contribution := lei_v_contribution
     platform_contributions := contributions
     prior_probability := prior
     posterior_probability := posterior
     evidence_strength := evidenceStrength contributions posterior
     audit_hash := hashed.1
     citation := "Viduya Family Legacy Glyph © 2025" }, hashed.2)

/-! ## Theorems for claim C9 -/

theorem fuse_posterior_eq (st : AuditHasher) (ts : String) (lv : ℚ) (stg : String)
    (cf : ℚ) (results : List PlatformResult) :
    (BayesianFusionEngine.fuse st ts lv stg cf results).1.posterior_probability =
      fusionPosterior lv stg cf results := rfl

theorem fuse_evidence_eq (st : AuditHasher) (ts : String) (lv : ℚ) (stg : String)
    (cf : ℚ) (results : List PlatformResult) :
    (BayesianFusionEngine.fuse st ts lv stg cf results).1.evidence_strength =
      evidenceStrength (fusionContributions stg results)
        (fusionPosterior lv stg cf results) := rfl

/-- C9: for every input to fuse the posterior probability is capped at 0.99
by posterior = min(0.99, u/(u + 0.1)); and given LEI-V stage stage_0_early
with confidence 90 and three platform results carrying stage labels of the
same severity level as stage_0_early with confidences at least 80,
evidence_strength is "strong" (each same-severity label gives concordance
1.0 > 0.7, and all three of the at-least-3 contributions pass that bar). -/
theorem C9_fusion_cap_and_strength :
    (∀ (st : AuditHasher) (ts : String) (lv : ℚ) (stg : String) (cf : ℚ)
      (results : List PlatformResult),
      (BayesianFusionEngine.fuse st ts lv stg cf results).1.posterior_probability ≤ 99/100) ∧
    (∀ (st : AuditHasher) (ts : String) (lv : ℚ) (results : List PlatformResult),
      results.length = 3 →
      (∀ r ∈ results, getStageField r ≠ "" ∧
        severityLevel (getStageField r) = severityLevel "stage_0_early" ∧
        80 ≤ getConfidence r) →
      (BayesianFusionEngine.fuse st ts lv "stage_0_early" 90 results).1.evidence_strength =
        "strong") := by
  constructor
  · intro st ts lv stg cf results
    rw [fuse_posterior_eq, fusionPosterior]
    exact min_le_left _ _
  · intro st ts lv results hlen hconc
    rw [fuse_evidence_eq, evidenceStrength, if_pos]
    constructor
    · rw [fusionContributions, List.length_map, hlen]
    · intro c hc
      rw [fusionContributions, List.mem_map] at hc
      obtain ⟨r, hr, hcr⟩ := hc
      obtain ⟨hne, hsev, _⟩ := hconc r hr
      have hcc : c.concordance_with_leiv = calculateConcordance r "stage_0_early" := by
        rw [← hcr]; rfl
      rw [hcc, calculateConcordance, if_neg hne]
      simp only [hsev, sub_self, Int.natAbs_zero, if_pos rfl]
      norm_num

/-- A concrete concordant platform result for the C9 witness. -/
def concordantResult (p : String) : PlatformResult :=
  { platform := some p
    confidence := some 85
    stage := some "stage_0_early"
    classification := none }

/-- Witness for C9: three concordant stage_0_early platform results with
confidence 85 yield evidence_strength "strong" under LEI-V stage
stage_0_early with confidence 90. -/
theorem C9_fusion_cap_and_strength_witness :
    ([concordantResult "med_gemini", concordantResult "aidoc",
        concordantResult "tempus"].length = 3) ∧
    (BayesianFusionEngine.fuse freshHasher "2025-01-01T00:00:00" (1/20)
        "stage_0_early" 90
        [concordantResult "med_gemini", concordantResult "aidoc",
          concordantResult "tempus"]).1.evidence_strength = "strong" := by
  have hlen : ([concordantResult "med_gemini", concordantResult "aidoc",
      concordantResult "tempus"].length = 3) := rfl
  refine ⟨hlen, (C9_fusion_cap_and_strength.2) freshHasher "2025-01-01T00:00:00"
    (1/20) _ hlen ?_⟩
  intro r hr
  simp only [List.mem_cons, List.not_mem_nil, or_false] at hr
  rcases hr with h | h | h <;>
  · subst h
    refine ⟨by decide, by decide, by norm_num [getConfidence, concordantResult]⟩

/-! ## Viduya glyph geometry (class ViduyaGlyph, src/core/viduya_glyph.py)

The exact sympy coordinate expressions are embedded in the real numbers.
The sp.simplify zero test inside verify_symmetry becomes a (classical)
equality test on reals; sympy decides it for these closed-form radicals, and
the model decides it propositionally. -/

/-- Layers of the Viduya Legacy Glyph (enum GlyphLayer). -/
inductive GlyphLayer where
  | triangle_hexagon
  | vesica_hexagon
  | hidden_star_triangle
  | rsl
deriving DecidableEq, BEq, Repr

/-- Immutable symbolic coordinate (dataclass GlyphCoordinate). -/
structure GlyphCoordinate where
  x : ℝ
  y : ℝ
  layer : GlyphLayer
  name : String
  electrode_index : Option ℕ

/-- GlyphCoordinate.distance_from_origin: the exact sqrt(x^2 + y^2). -/
noncomputable def distance_from_origin (c : GlyphCoordinate) : ℝ :=
  Real.sqrt (c.x ^ 2 + c.y ^ 2)

/-- _add_triangle_hexagon_points, in source append order: the two axial
points, then the four off-axis points with sign_x outer and sign_y inner. -/
noncomputable def thPoints : List GlyphCoordinate :=
  [⟨Real.sqrt 3 / 4, 0, .triangle_hexagon, "TH_axial_pos", none⟩,
   ⟨-(Real.sqrt 3 / 4), 0, .triangle_hexagon, "TH_axial_neg", none⟩,
   ⟨Real.sqrt 3 / 8, 3/8, .triangle_hexagon, "TH_offaxis_+x_+y", none⟩,
   ⟨Real.sqrt 3 / 8, -(3/8), .triangle_hexagon, "TH_offaxis_+x_-y", none⟩,
   ⟨-(Real.sqrt 3 / 8), 3/8, .triangle_hexagon, "TH_offaxis_-x_+y", none⟩,
   ⟨-(Real.sqrt 3 / 8), -(3/8), .triangle_hexagon, "TH_offaxis_-x_-y", none⟩]

/-- _add_vesica_hexagon_points. -/
noncomputable def vhPoints : List GlyphCoordinate :=
  [⟨Real.sqrt 3 * (3/80 + Real.sqrt 229 / 80), -(37/80) + Real.sqrt 229 / 80,
     .vesica_hexagon, "VH_pos", none⟩,
   ⟨Real.sqrt 3 * (3/80 - Real.sqrt 229 / 80), -(37/80) + Real.sqrt 229 / 80,
     .vesica_hexagon, "VH_neg", none⟩,
   ⟨-(Real.sqrt 3 * (3/80 + Real.sqrt 229 / 80)), -(37/80) + Real.sqrt 229 / 80,
     .vesica_hexagon, "VH_mirror_pos", none⟩,
   ⟨-(Real.sqrt 3 * (3/80 - Real.sqrt 229 / 80)), -(37/80) + Real.sqrt 229 / 80,
     .vesica_hexagon, "VH_mirror_neg", none⟩]

/-- _add_hidden_star_triangle_points. -/
noncomputable def hstPoints : List GlyphCoordinate :=
  [⟨7/40 - Real.sqrt 2 / 4, -(3/8), .hidden_star_triangle, "HST_pos", none⟩,
   ⟨-(7/40 - Real.sqrt 2 / 4), -(3/8), .hidden_star_triangle, "HST_neg", none⟩]

/-- One RSL electrode of _add_rsl_points: radius sqrt(3)/4 at angle
(i)*60 degrees for loop index i, electrode index i+1. -/
noncomputable def rslPoint (i : ℕ) : GlyphCoordinate :=
  ⟨Real.sqrt 3 / 4 * Real.cos (i * Real.pi / 3),
   Real.sqrt 3 / 4 * Real.sin (i * Real.pi / 3),
   .rsl, "RSL_electrode_" ++ toString (i + 1), some (i + 1)⟩

/-- _add_rsl_points: the loop over range(6). -/
noncomputable def rslPoints : List GlyphCoordinate := (List.range 6).map rslPoint

/-- _build_all_coordinates: all 18 points in construction order. -/
noncomputable def glyphCoordinates : List GlyphCoordinate :=
  thPoints ++ vhPoints ++ hstPoints ++ rslPoints

/-- ViduyaGlyph.get_rsl_electrodes: filter by the RSL layer. -/
noncomputable def get_rsl_electrodes (g : List GlyphCoordinate) : List GlyphCoordinate :=
  g.filter (fun c => c.layer == GlyphLayer.rsl)

/-- The success message of verify_symmetry. -/
def symmetryVerifiedMsg : String :=
  "C₃ × D₆ symmetry verified. Citation: Viduya Family Legacy Glyph © 2025"

open Classical in
/-- The radii loop of verify_symmetry: starting at enumerate index 1, return
the mismatch message at the first radius whose simplified difference from the
first radius is nonzero, the success message if none is (the source mismatch
message additionally renders the symbolic difference, which the model
omits). -/
noncomputable def checkRadii (r0 : ℝ) : List ℝ → ℕ → Bool × String
  | [], _ => (true, symmetryVerifiedMsg)
  | r :: rest, i =>
    if r - r0 ≠ 0 then (false, "Radius mismatch at electrode " ++ toString (i + 1))
    else checkRadii r0 rest (i + 1)

/-- The body of verify_symmetry applied to the RSL electrode list: require 6
electrodes, then require every radius to equal the first (the empty match arm
is unreachable under the length guard). -/
noncomputable def verifySymmetryCheck (rsl : List GlyphCoordinate) : Bool × String :=
  if rsl.length ≠ 6 then
    (false, "Expected 6 RSL electrodes, found " ++ toString rsl.length)
  else
    match rsl with
    | [] => (false, "Expected 6 RSL electrodes, found 0")
    | r0 :: rest =>
      checkRadii (distance_from_origin r0) (rest.map distance_from_origin) 1

/-- ViduyaGlyph.verify_symmetry (src/core/viduya_glyph.py lines 191-212). -/
noncomputable def ViduyaGlyph.verify_symmetry (g : List GlyphCoordinate) : Bool × String :=
  verifySymmetryCheck (get_rsl_electrodes g)

/-! ## Theorems for claim C6 -/

/-- The distance from the origin of a point given in polar form with a
nonnegative radius is that radius. -/
theorem dist_polar (r θ : ℝ) (hr : 0 ≤ r) (layer : GlyphLayer) (name : String)
    (idx : Option ℕ) :
    distance_from_origin ⟨r * Real.cos θ, r * Real.sin θ, layer, name, idx⟩ = r := by
  rw [distance_from_origin]
  have hsq : (r * Real.cos θ) ^ 2 + (r * Real.sin θ) ^ 2 = r ^ 2 := by
    calc (r * Real.cos θ) ^ 2 + (r * Real.sin θ) ^ 2
        = r ^ 2 * (Real.sin θ ^ 2 + Real.cos θ ^ 2) := by ring
      _ = r ^ 2 := by rw [Real.sin_sq_add_cos_sq, mul_one]
  rw [hsq, Real.sqrt_sq hr]

/-- Every RSL electrode sits at exact distance sqrt(3)/4 from the origin. -/
theorem dist_rslPoint (i : ℕ) :
    distance_from_origin (rslPoint i) = Real.sqrt 3 / 4 :=
  dist_polar (Real.sqrt 3 / 4) (i * Real.pi / 3) (by positivity) _ _ _

theorem checkRadii_all_eq (r0 : ℝ) (l : List ℝ) (i : ℕ)
    (hall : ∀ r ∈ l, r = r0) :
    checkRadii r0 l i = (true, symmetryVerifiedMsg) := by
  induction l generalizing i with
  | nil => rfl
  | cons r rest ih =>
    have hr : r = r0 := hall r (List.mem_cons_self r rest)
    rw [checkRadii, if_neg (by simp [hr])]
    exact ih (i + 1) (fun x hx => hall x (List.mem_cons_of_mem r hx))

/-- On a six-element electrode list the guard passes and the radii loop runs
from the first radius. -/
theorem verifySymmetryCheck_cons (c0 c1 c2 c3 c4 c5 : GlyphCoordinate) :
    verifySymmetryCheck [c0, c1, c2, c3, c4, c5] =
      checkRadii (distance_from_origin c0)
        ([c1, c2, c3, c4, c5].map distance_from_origin) 1 := rfl

/-- C6: all 6 RSL electrode coordinates built at angles (i-1)*60 degrees with
radius sqrt(3)/4 lie at exactly the same symbolic distance sqrt(3)/4 from the
origin — every pairwise difference of radii is zero — and verify_symmetry on
the glyph returns success with the verification message. -/
theorem C6_rsl_symmetry :
    (get_rsl_electrodes glyphCoordinates).map distance_from_origin =
      List.replicate 6 (Real.sqrt 3 / 4) ∧
    ViduyaGlyph.verify_symmetry glyphCoordinates = (true, symmetryVerifiedMsg) := by
  have hfilter : get_rsl_electrodes glyphCoordinates =
      [rslPoint 0, rslPoint 1, rslPoint 2, rslPoint 3, rslPoint 4, rslPoint 5] := rfl
  constructor
  · rw [hfilter]
    simp [dist_rslPoint, List.replicate_succ]
  · have hv : ViduyaGlyph.verify_symmetry glyphCoordinates =
        verifySymmetryCheck (get_rsl_electrodes glyphCoordinates) := rfl
    rw [hv, hfilter, verifySymmetryCheck_cons]
    have hall : ∀ r ∈ [rslPoint 1, rslPoint 2, rslPoint 3, rslPoint 4,
        rslPoint 5].map distance_from_origin, r = distance_from_origin (rslPoint 0) := by
      intro r hrm
      rw [List.mem_map] at hrm
      obtain ⟨c, hc, hrc⟩ := hrm
      rw [dist_rslPoint 0, ← hrc]
      simp only [List.mem_cons, List.not_mem_nil, or_false] at hc
      rcases hc with h | h | h | h | h <;> rw [h, dist_rslPoint]
    exact checkRadii_all_eq _ _ 1 hall

/-! ## RSL electrode placement (class RSLPlacement, src/hardware/rsl_placement.py)

The anatomical scaling arithmetic runs on Python floats in the source
(float(GLYPH_RADIUS.evalf()) appears in both scale branches); it is embedded
exactly in the reals, a relative difference below 10^-15 that sits far under
the 2-decimal rounding of the stored centimetre coordinates and does not
perturb the exact factor-2 relation between the two branches. -/

/-- RSLPlacement.GLYPH_RADIUS = sqrt(3)/4. -/
noncomputable def GLYPH_RADIUS : ℝ := Real.sqrt 3 / 4

/-- RSLPlacement.DEFAULT_SCALE_FACTOR = 24.0 / GLYPH_RADIUS, from the 24 cm
population-average inter-ASIS distance. -/
noncomputable def DEFAULT_SCALE_FACTOR : ℝ := 24 / GLYPH_RADIUS

/-- Patient measurements for RSL scaling (dataclass PatientAnthropometry). -/
structure PatientAnthropometry where
  inter_asis_distance_cm : ℝ
  pubis_umbilicus_distance_cm : ℝ
  patient_id : String
  measurement_date : String

/-- RSLPlacement._get_scale_factor (src/hardware/rsl_placement.py lines
111-116): the patient branch divides the measured inter-ASIS distance by the
glyph DIAMETER (GLYPH_RADIUS * 2) while the default divides 24 by the glyph
RADIUS. -/
noncomputable def getScaleFactor : Option PatientAnthropometry → ℝ
  | some a => a.inter_asis_distance_cm / (GLYPH_RADIUS * 2)
  | none => DEFAULT_SCALE_FACTOR

/-- Glyph x coordinate of loop electrode i (electrode number i+1). -/
noncomputable def electrodeGlyphX (i : ℕ) : ℝ :=
  GLYPH_RADIUS * Real.cos (i * Real.pi / 3)

/-- Glyph y coordinate of loop electrode i. -/
noncomputable def electrodeGlyphY (i : ℕ) : ℝ :=
  GLYPH_RADIUS * Real.sin (i * Real.pi / 3)

/-- The scaled anatomical x position before the 2-decimal display rounding of
_build_electrode_positions. -/
noncomputable def anatX (anthro : Option PatientAnthropometry) (i : ℕ) : ℝ :=
  electrodeGlyphX i * getScaleFactor anthro

/-- The scaled anatomical y position before the 2-decimal display rounding. -/
noncomputable def anatY (anthro : Option PatientAnthropometry) (i : ℕ) : ℝ :=
  electrodeGlyphY i * getScaleFactor anthro

/-- round(x, 2) applied to the stored centimetre coordinates (Python rounds
halves to even where Lean round rounds them up; no scaled coordinate of this
layout lands on an exact half-hundredth, so the branch never separates
them). -/
noncomputable def round2 (x : ℝ) : ℝ := ((round (x * 100) : ℤ) : ℝ) / 100

/-- Single electrode position (dataclass ElectrodePosition,
src/hardware/rsl_placement.py lines 31-44). -/
structure ElectrodePosition where
  electrode_number : ℕ
  glyph_x : ℝ
  glyph_y : ℝ
  anatomical_x_cm : ℝ
  anatomical_y_cm : ℝ
  angle_degrees : ℝ
  description : String

/-- The fixed clock-position descriptions of _build_electrode_positions. -/
def electrodeDescriptions : List String :=
  ["Right lateral pelvic (3 o\x27clock)",
   "Right superior pelvic (1 o\x27clock)",
   "Left superior pelvic (11 o\x27clock)",
   "Left lateral pelvic (9 o\x27clock)",
   "Left inferior pelvic (7 o\x27clock)",
   "Right inferior pelvic (5 o\x27clock)"]

/-- The ElectrodePosition built for loop index i (electrode number i+1):
exact glyph coordinates, anatomical centimetres rounded to 2 decimals, and
the angle i*60 degrees. -/
noncomputable def buildElectrode (anthro : Option PatientAnthropometry) (i : ℕ) :
    ElectrodePosition :=
  { electrode_number := i + 1
    glyph_x := electrodeGlyphX i
    glyph_y := electrodeGlyphY i
    anatomical_x_cm := round2 (anatX anthro i)
    anatomical_y_cm := round2 (anatY anthro i)
    angle_degrees := (i : ℝ) * 60
    description := electrodeDescriptions.getD i "" }

/-- RSLPlacement._build_electrode_positions: the loop over range(6). -/
noncomputable def buildElectrodePositions (anthro : Option PatientAnthropometry) :
    List ElectrodePosition :=
  (List.range 6).map (buildElectrode anthro)

/-- The anatomical distance from the center of electrode i: the norm of its
scaled (unrounded) anatomical position. -/
noncomputable def anatomicalDistance (anthro : Option PatientAnthropometry) (i : ℕ) : ℝ :=
  Real.sqrt (anatX anthro i ^ 2 + anatY anthro i ^ 2)

/-! ## Theorems for claim C10 -/

theorem glyphRadius_pos : 0 < GLYPH_RADIUS := by
  rw [GLYPH_RADIUS]
  positivity

/-- The anatomical distance of every electrode is the scale factor times the
glyph radius (for a nonnegative scale). -/
theorem anatomicalDistance_eq (anthro : Option PatientAnthropometry) (i : ℕ)
    (hs : 0 ≤ getScaleFactor anthro) :
    anatomicalDistance anthro i = GLYPH_RADIUS * getScaleFactor anthro := by
  rw [anatomicalDistance, anatX, anatY, electrodeGlyphX, electrodeGlyphY]
  have hsq : (GLYPH_RADIUS * Real.cos (i * Real.pi / 3) * getScaleFactor anthro) ^ 2 +
      (GLYPH_RADIUS * Real.sin (i * Real.pi / 3) * getScaleFactor anthro) ^ 2 =
      (GLYPH_RADIUS * getScaleFactor anthro) ^ 2 := by
    calc (GLYPH_RADIUS * Real.cos (i * Real.pi / 3) * getScaleFactor anthro) ^ 2 +
        (GLYPH_RADIUS * Real.sin (i * Real.pi / 3) * getScaleFactor anthro) ^ 2
        = (GLYPH_RADIUS * getScaleFactor anthro) ^ 2 *
            (Real.sin (i * Real.pi / 3) ^ 2 + Real.cos (i * Real.pi / 3) ^ 2) := by ring
      _ = (GLYPH_RADIUS * getScaleFactor anthro) ^ 2 := by
          rw [Real.sin_sq_add_cos_sq, mul_one]
  rw [hsq, Real.sqrt_sq (mul_nonneg glyphRadius_pos.le hs)]

/-- C10: the two scaling branches disagree by a factor of 2 at the public
interface.  With no patient anthropometry every electrode sits 24 cm from the
center (scale = 24 / radius), but for a patient whose measured inter-ASIS
distance equals the same 24 cm population average every electrode sits 12 cm
from the center, because the patient branch divides by the glyph diameter
(2 * sqrt(3)/4) where the default branch divides by the radius (sqrt(3)/4);
accordingly the default scale factor is exactly twice the patient one. -/
theorem C10_scale_factor_inconsistency :
    (∀ i : Fin 6, anatomicalDistance none i = 24) ∧
    (∀ a : PatientAnthropometry, a.inter_asis_distance_cm = 24 →
      (∀ i : Fin 6, anatomicalDistance (some a) i = 12) ∧
      getScaleFactor none = 2 * getScaleFactor (some a)) := by
  have hg := glyphRadius_pos
  have hgne : GLYPH_RADIUS ≠ 0 := ne_of_gt hg
  have hdef : getScaleFactor none = 24 / GLYPH_RADIUS := rfl
  have hdefpos : 0 ≤ getScaleFactor none := by
    rw [hdef]
    positivity
  constructor
  · intro i
    rw [anatomicalDistance_eq none i hdefpos, hdef]
    field_simp
  · intro a ha
    have hpat : getScaleFactor (some a) = 24 / (GLYPH_RADIUS * 2) := by
      rw [getScaleFactor, ha]
    have hpatpos : 0 ≤ getScaleFactor (some a) := by
      rw [hpat]
      positivity
    constructor
    · intro i
      rw [anatomicalDistance_eq (some a) i hpatpos, hpat]
      field_simp
      ring
    · rw [hdef, hpat]
      field_simp
      ring

/-- A concrete patient with the population-average 24 cm inter-ASIS distance
for the C10 witness. -/
def averagePatient : PatientAnthropometry :=
  { inter_asis_distance_cm := 24
    pubis_umbilicus_distance_cm := 16
    patient_id := "ENDO-2025-00000001"
    measurement_date := "2025-01-01" }

/-- Witness for C10: electrode 1 sits at 24 cm under the default scale and at
12 cm for the average 24 cm patient, and the default scale is twice the
patient scale. -/
theorem C10_scale_factor_inconsistency_witness :
    averagePatient.inter_asis_distance_cm = 24 ∧
    anatomicalDistance none 0 = 24 ∧
    anatomicalDistance (some averagePatient) 0 = 12 ∧
    getScaleFactor none = 2 * getScaleFactor (some averagePatient) := by
  have ha : averagePatient.inter_asis_distance_cm = 24 := rfl
  have H := C10_scale_factor_inconsistency
  have H2 := H.2 averagePatient ha
  exact ⟨ha, H.1 ⟨0, by omega⟩, H2.1 ⟨0, by omega⟩, H2.2⟩

end Endochain
